import Mathlib

set_option maxHeartbeats 1000000

/-!
Shallow embedding of the WHOIS core of `src/main.rs` (whois-lookup-tool).

The network is modelled as an oracle `Net` mapping the connection address
(host, port) and the query line written to the socket to an outcome: either
a transport failure (connect / timeout / write / read) or the full text read
until the peer closed the connection.  `query_whois_server` and
`perform_whois` are translated from the Rust functions of the same names;
each transport call additionally records an `Attempt` (the address, the
query line, and the read/write timeouts, in seconds, configured on the
stream), and `perform_whois` records the trace of attempts and the
warnings it prints for a failed TLD-specific attempt, so that theorems can
speak about which servers were contacted.
-/

/-- One row of the `create_whois_servers` table:
`(tld, server host, query prefix)`.  The third tuple component of the Rust
code is named `pfx` here. -/
structure ServerEntry where
  tld : String
  host : String
  pfx : String
deriving DecidableEq

/-- Function `create_whois_servers` from `src/main.rs`: the fixed
TLD → WHOIS server table. -/
def create_whois_servers : List ServerEntry :=
  [⟨"com", "whois.verisign-grs.com", "domain "⟩,
   ⟨"net", "whois.verisign-grs.com", "domain "⟩,
   ⟨"org", "whois.pir.org", ""⟩,
   ⟨"edu", "whois.educause.edu", ""⟩,
   ⟨"it", "whois.nic.it", ""⟩,
   ⟨"uk", "whois.nic.uk", ""⟩,
   ⟨"ru", "whois.tcinet.ru", ""⟩,
   ⟨"de", "whois.denic.de", "-T dn "⟩,
   ⟨"nl", "whois.domain-registry.nl", ""⟩]

/-- Rust `str::split(c)` on a character: splits the character list at every
occurrence of `c`.  Like the Rust iterator, it yields at least one (possibly
empty) segment: `splitOnChar c [] = [[]]`. -/
def splitOnChar (c : Char) : List Char → List (List Char)
  | [] => [[]]
  | x :: xs =>
    if x = c then [] :: splitOnChar c xs
    else
      match splitOnChar c xs with
      | [] => [[x]]
      | y :: ys => (x :: y) :: ys

/-- Function `get_tld` from `src/main.rs`: `domain.split('.').last()`. -/
def get_tld (domain : String) : Option String :=
  ((splitOnChar '.' domain.data).getLast?).map (fun l => String.mk l)

/-- A transport-level failure of the socket interaction: connection refusal
or DNS failure for the WHOIS host, a stall past the configured timeout, a
failed `write_all`, or a failed `read_to_string`. -/
inductive NetFail where
  | connectError
  | timeoutError
  | writeError
  | readError
deriving DecidableEq

/-- What the network does for one transport call: fail at some stage, or
deliver the full accumulated text read before the peer closed the
connection. -/
inductive NetOutcome where
  | fail (e : NetFail)
  | reply (response : String)

/-- The network oracle: host, port, query line written → outcome. -/
abbrev Net := String → Nat → String → NetOutcome

/-- An error produced by `query_whois_server`: a transport failure, or the
"Empty response from server" error raised when the accumulated response is
whitespace-only. -/
inductive QueryError where
  | net (e : NetFail)
  | emptyResponse
deriving DecidableEq

/-- The observable record of one transport call: the address connected to,
the query line written, and the read/write timeouts (in seconds) configured
on the stream. -/
structure Attempt where
  server : String
  port : Nat
  queryLine : String
  readTimeoutSecs : Nat
  writeTimeoutSecs : Nat
deriving DecidableEq

/-- Rust `str::trim` over the character list: drop leading and trailing
whitespace (Lean's `Char.isWhitespace` — space, tab, CR, LF — standing in
for Rust's Unicode `char::is_whitespace`). -/
def trimChars (l : List Char) : List Char :=
  ((l.dropWhile Char.isWhitespace).reverse.dropWhile Char.isWhitespace).reverse

/-- Function `query_whois_server` from `src/main.rs`: connect to
`(server, 43)`, set
10-second read and write timeouts, write `format!("{}{}\r\n", pfx, target)`,
read to end of stream, and reject a response that is empty after trimming
(`response.trim().is_empty()`) as "Empty response from server".  On success
the untrimmed response is returned.  The second component is the `Attempt`
record of the call. -/
def query_whois_server (net : Net) (server : String) (pfx : String)
    (target : String) : Except QueryError String × Attempt :=
  (match net server 43 (pfx ++ target ++ "\r\n") with
   | .fail e => .error (.net e)
   | .reply response =>
     if (trimChars response.data).isEmpty then .error .emptyResponse
     else .ok response,
   ⟨server, 43, pfx ++ target ++ "\r\n", 10, 10⟩)

/-- The registry lookup `servers.iter().find(|&&(t, _, _)| t == tld)` of
`perform_whois`. -/
def registryLookup (tld : String) : Option ServerEntry :=
  create_whois_servers.find? (fun e => e.tld == tld)

/-- The TLD-specific server selection of `perform_whois`:
`if let Some(tld) = get_tld(target) { if let Some(entry) = find ... }`. -/
def specificEntry (target : String) : Option ServerEntry :=
  match get_tld target with
  | some tld => registryLookup tld
  | none => none

/-- The value a successful resolution reports: which server answered and
the raw response body. -/
structure WhoisOutput where
  respondingServer : String
  body : String
deriving DecidableEq

/-- The terminal error of `perform_whois`:
`anyhow!("WHOIS lookup failed: {}", e)` wrapping the fallback attempt's
error `e`. -/
inductive ResolveError where
  | lookupFailed (cause : QueryError)
deriving DecidableEq

/-- The observable side effects of one resolution: the transport attempts
made, in order, and the warnings printed to stderr
(`"TLD-specific server failed: ..."`) for a failed TLD-specific attempt. -/
structure ResolveTrace where
  attempts : List Attempt
  warnings : List QueryError
deriving DecidableEq

/-- The fallback block of `perform_whois`: query `whois.iana.org` with an
empty query prefix; success wraps the body with the IANA host, failure
becomes the terminal "WHOIS lookup failed" error. -/
def iana_fallback (net : Net) (target : String) :
    Except ResolveError WhoisOutput × Attempt :=
  let q := query_whois_server net "whois.iana.org" "" target
  match q.1 with
  | .ok body => (.ok ⟨"whois.iana.org", body⟩, q.2)
  | .error e => (.error (.lookupFailed e), q.2)

/-- Function `perform_whois` from `src/main.rs`: try the TLD-specific
server when the
registry has an entry for the extracted TLD, returning its answer
immediately on success; otherwise (entry missing, or the specific call
failed — the failure being printed as a warning) run the IANA fallback.
The second component is the trace of attempts and warnings. -/
def perform_whois (net : Net) (target : String) :
    Except ResolveError WhoisOutput × ResolveTrace :=
  match specificEntry target with
  | some entry =>
    let q := query_whois_server net entry.host entry.pfx target
    match q.1 with
    | .ok body => (.ok ⟨entry.host, body⟩, ⟨[q.2], []⟩)
    | .error e =>
      let f := iana_fallback net target
      (f.1, ⟨[q.2, f.2], [e]⟩)
  | none =>
    let f := iana_fallback net target
    (f.1, ⟨[f.2], []⟩)

/-- The `"-".repeat(50)` separator of `print_whois_result`. -/
def sep_line : String := String.mk (List.replicate 50 '-')

/-- Function `print_whois_result` from `src/main.rs`, as the list of lines
printed
(colour escapes of the `colored` crate are not modelled): header,
separator, the "Server used" line, separator, then the body verbatim. -/
def print_whois_result (server : String) (result : String) : List String :=
  ["WHOIS Information:", sep_line,
   "Server used: " ++ server, sep_line, result]

/-! ### Helper lemmas -/

/-- Like Rust's `split` iterator, `splitOnChar` always yields at least one
segment. -/
theorem splitOnChar_ne_nil (c : Char) (l : List Char) :
    splitOnChar c l ≠ [] := by
  induction l with
  | nil => simp [splitOnChar]
  | cons x xs ih =>
    simp only [splitOnChar]
    split
    · simp
    · cases h : splitOnChar c xs with
      | nil => exact absurd h ih
      | cons y ys => simp [h]

/-- A list without any occurrence of `c` is split into the single segment
that is the whole list. -/
theorem splitOnChar_of_not_mem {c : Char} {l : List Char} (h : c ∉ l) :
    splitOnChar c l = [l] := by
  induction l with
  | nil => rfl
  | cons x xs ih =>
    have hx : x ≠ c := fun hxc => h (hxc ▸ List.mem_cons_self x xs)
    have hxs : c ∉ xs := fun hm => h (List.mem_cons_of_mem x hm)
    simp only [splitOnChar, if_neg hx, ih hxs]

/-- The extractor `get_tld` never returns `none`: Rust's
`split('.').last()` always finds a (possibly empty) final segment. -/
theorem get_tld_isSome (s : String) : (get_tld s).isSome := by
  unfold get_tld
  rcases h : (splitOnChar '.' s.data).getLast? with _ | seg
  · exact absurd (List.getLast?_eq_none_iff.mp h) (splitOnChar_ne_nil '.' s.data)
  · simp [h]

/-- On a dot-free input, `get_tld` returns the whole input. -/
theorem get_tld_of_no_dot {s : String} (h : '.' ∉ s.data) :
    get_tld s = some s := by
  unfold get_tld
  rw [splitOnChar_of_not_mem h]
  rfl

/-- The attempt recorded by `query_whois_server` is independent of the
network's behaviour: the address is `(server, 43)`, the query line is
`pfx ++ target ++ "\r\n"`, and both timeouts are 10 seconds. -/
theorem query_whois_server_attempt (net : Net) (server pfx target : String) :
    (query_whois_server net server pfx target).2 =
      ⟨server, 43, pfx ++ target ++ "\r\n", 10, 10⟩ := rfl

/-- The attempt recorded by the IANA fallback: host `whois.iana.org`,
port 43, empty query prefix. -/
theorem iana_fallback_attempt (net : Net) (target : String) :
    (iana_fallback net target).2 =
      ⟨"whois.iana.org", 43, target ++ "\r\n", 10, 10⟩ := by
  unfold iana_fallback
  rcases h : (query_whois_server net "whois.iana.org" "" target).1 with e | body <;>
    simpa [h] using query_whois_server_attempt net "whois.iana.org" "" target

/-- The result of the IANA fallback, by cases on the fallback query. -/
theorem iana_fallback_result (net : Net) (target : String) :
    (iana_fallback net target).1 =
      match (query_whois_server net "whois.iana.org" "" target).1 with
      | .ok body => .ok ⟨"whois.iana.org", body⟩
      | .error e => .error (.lookupFailed e) := by
  unfold iana_fallback
  rcases h : (query_whois_server net "whois.iana.org" "" target).1 with e | body <;>
    simp [h]

/-- A successful registry lookup returns a row of the table whose `tld`
field equals the looked-up string. -/
theorem registryLookup_mem {t : String} {e : ServerEntry}
    (h : registryLookup t = some e) : e ∈ create_whois_servers ∧ e.tld = t :=
  ⟨List.mem_of_find?_eq_some h, by simpa using List.find?_some h⟩

/-- No host in the TLD-specific table is the fallback host. -/
theorem registry_host_ne_iana :
    ∀ e ∈ create_whois_servers, e.host ≠ "whois.iana.org" := by decide

/-- An entry selected for a target is a row of the server table. -/
theorem specificEntry_mem {target : String} {e : ServerEntry}
    (h : specificEntry target = some e) : e ∈ create_whois_servers := by
  unfold specificEntry at h
  rcases hg : get_tld target with _ | tld <;> rw [hg] at h
  · exact absurd h (by simp)
  · exact (registryLookup_mem h).1

/-- The attempts of a resolution, by cases on the selected entry and the
outcome of the TLD-specific query: one specific attempt on success, the
specific attempt then the IANA fallback on failure, and the IANA fallback
alone when no entry is selected. -/
theorem perform_whois_attempts (net : Net) (target : String) :
    (perform_whois net target).2.attempts =
      match specificEntry target with
      | some e =>
        match (query_whois_server net e.host e.pfx target).1 with
        | .ok _ => [⟨e.host, 43, e.pfx ++ target ++ "\r\n", 10, 10⟩]
        | .error _ =>
          [⟨e.host, 43, e.pfx ++ target ++ "\r\n", 10, 10⟩,
           ⟨"whois.iana.org", 43, target ++ "\r\n", 10, 10⟩]
      | none => [⟨"whois.iana.org", 43, target ++ "\r\n", 10, 10⟩] := by
  rcases hs : specificEntry target with _ | e
  · simp [perform_whois, hs, iana_fallback_attempt]
  · rcases hq : (query_whois_server net e.host e.pfx target).1 with err | body <;>
      simp [perform_whois, hs, hq, query_whois_server_attempt,
        iana_fallback_attempt]

/-! ### Claim theorems -/

/-- C1: for every target whose extracted TLD has a registry entry and whose
TLD-specific transport call succeeds, `perform_whois` returns the entry's
host as the responding server together with the transport body, its trace
contains that single attempt, and no attempt against `whois.iana.org` is
made. -/
theorem resolve_specific_success (net : Net) (target tld : String)
    (e : ServerEntry) (body : String)
    (htld : get_tld target = some tld)
    (hreg : registryLookup tld = some e)
    (hq : (query_whois_server net e.host e.pfx target).1 = .ok body) :
    perform_whois net target =
      (.ok ⟨e.host, body⟩,
       ⟨[⟨e.host, 43, e.pfx ++ target ++ "\r\n", 10, 10⟩], []⟩) ∧
    ∀ a ∈ (perform_whois net target).2.attempts, a.server ≠ "whois.iana.org" := by
  have hs : specificEntry target = some e := by
    simp [specificEntry, htld, hreg]
  have hmain : perform_whois net target =
      (.ok ⟨e.host, body⟩,
       ⟨[⟨e.host, 43, e.pfx ++ target ++ "\r\n", 10, 10⟩], []⟩) := by
    simp [perform_whois, hs, hq, query_whois_server_attempt]
  refine ⟨hmain, ?_⟩
  intro a ha
  rw [hmain] at ha
  simp only [List.mem_singleton] at ha
  subst ha
  exact registry_host_ne_iana e (registryLookup_mem hreg).1

/-- C1 witness: target `"example.com"` against a network that always replies
`"data"`. -/
theorem resolve_specific_success_witness :
    perform_whois (fun _ _ _ => .reply "data") "example.com" =
      (.ok ⟨"whois.verisign-grs.com", "data"⟩,
       ⟨[⟨"whois.verisign-grs.com", 43,
          "domain " ++ "example.com" ++ "\r\n", 10, 10⟩], []⟩) ∧
    ∀ a ∈ (perform_whois (fun _ _ _ => .reply "data") "example.com").2.attempts,
      a.server ≠ "whois.iana.org" :=
  resolve_specific_success (fun _ _ _ => .reply "data") "example.com" "com"
    ⟨"com", "whois.verisign-grs.com", "domain "⟩ "data"
    (by decide) (by decide) rfl

/-- C2: when the TLD-specific attempt is skipped (no registry entry) the
trace is exactly one fallback attempt against `whois.iana.org` with query
line `target ++ "\r\n"`, and when the specific attempt fails the trace is
that failed attempt followed by exactly that one fallback attempt; in both
cases a successful fallback yields responding server `"whois.iana.org"`. -/
theorem resolve_fallback_behaviour (net : Net) (target : String) :
    (specificEntry target = none →
      (perform_whois net target).2.attempts =
        [⟨"whois.iana.org", 43, target ++ "\r\n", 10, 10⟩] ∧
      ∀ body, (query_whois_server net "whois.iana.org" "" target).1 = .ok body →
        (perform_whois net target).1 = .ok ⟨"whois.iana.org", body⟩) ∧
    (∀ e err, specificEntry target = some e →
      (query_whois_server net e.host e.pfx target).1 = .error err →
      (perform_whois net target).2.attempts =
        [⟨e.host, 43, e.pfx ++ target ++ "\r\n", 10, 10⟩,
         ⟨"whois.iana.org", 43, target ++ "\r\n", 10, 10⟩] ∧
      ∀ body, (query_whois_server net "whois.iana.org" "" target).1 = .ok body →
        (perform_whois net target).1 = .ok ⟨"whois.iana.org", body⟩) := by
  constructor
  · intro hnone
    have hatt := iana_fallback_attempt net target
    constructor
    · simp [perform_whois, hnone, hatt]
    · intro body hb
      have hres := iana_fallback_result net target
      rw [hb] at hres
      simp [perform_whois, hnone, hres]
  · intro e err hsome hq
    have hatt := iana_fallback_attempt net target
    constructor
    · simp [perform_whois, hsome, hq, hatt, query_whois_server_attempt]
    · intro body hb
      have hres := iana_fallback_result net target
      rw [hb] at hres
      simp [perform_whois, hsome, hq, hres]

/-- C2 witness: target `"example.xyz"` (TLD `xyz` absent from the registry)
against a network that always replies `"iana data"`: only `whois.iana.org`
is contacted and it is reported as the responding server. -/
theorem resolve_fallback_behaviour_witness :
    (perform_whois (fun _ _ _ => .reply "iana data") "example.xyz").2.attempts =
      [⟨"whois.iana.org", 43, "example.xyz" ++ "\r\n", 10, 10⟩] ∧
    (perform_whois (fun _ _ _ => .reply "iana data") "example.xyz").1 =
      .ok ⟨"whois.iana.org", "iana data"⟩ := by
  have h := (resolve_fallback_behaviour
      (fun _ _ _ => .reply "iana data") "example.xyz").1 (by decide)
  exact ⟨h.1, h.2 "iana data" rfl⟩

/-- C3 counterexample: `get_tld "noDotHere"` is `some "noDotHere"`, not
`none`, and `get_tld "a.b."` is the empty final segment `some ""`, not the
last non-empty segment `"b"`. -/
theorem get_tld_claim_counterexample :
    get_tld "noDotHere" = some "noDotHere" ∧ get_tld "a.b." = some "" := by
  decide

/-- C3 amended: `get_tld` splits the input on `'.'` and returns the last
segment, which may be empty; it never returns `none`, and on a dot-free
input it returns the entire input; `get_tld "example.com" = some "com"`,
`get_tld "a.b.c.de" = some "de"`, `get_tld "noDotHere" = some "noDotHere"`. -/
theorem get_tld_amended :
    (∀ s : String, (get_tld s).isSome) ∧
    get_tld "example.com" = some "com" ∧
    get_tld "a.b.c.de" = some "de" ∧
    get_tld "noDotHere" = some "noDotHere" :=
  ⟨get_tld_isSome, by decide, by decide, by decide⟩

/-- C4: the query line of every transport call is the query prefix, then
the target, then CRLF, sent to port 43; for target `"example.com"` the
selected entry is `(whois.verisign-grs.com, "domain ")` and the query line
is `"domain example.com\r\n"`. -/
theorem query_line_format (net : Net) (server pfx target : String) :
    (query_whois_server net server pfx target).2 =
      ⟨server, 43, pfx ++ target ++ "\r\n", 10, 10⟩ ∧
    specificEntry "example.com" =
      some ⟨"com", "whois.verisign-grs.com", "domain "⟩ ∧
    (query_whois_server net "whois.verisign-grs.com" "domain " "example.com").2 =
      ⟨"whois.verisign-grs.com", 43, "domain example.com\r\n", 10, 10⟩ :=
  ⟨rfl, by decide, rfl⟩

/-- C5: registry lookup returns an entry of the fixed table whose `tld`
field equals the input exactly (case-sensitively), returns `none` exactly
when no entry matches, the table's `tld` values are unique (so the matching
entry is the first and only one), and entries exist for com, net, org, edu,
it, uk, ru, de and nl. -/
theorem registry_lookup_spec :
    (∀ t e, registryLookup t = some e →
        e ∈ create_whois_servers ∧ e.tld = t) ∧
    (∀ t, registryLookup t = none → ∀ e ∈ create_whois_servers, e.tld ≠ t) ∧
    (create_whois_servers.map ServerEntry.tld).Nodup ∧
    (∀ t ∈ (["com", "net", "org", "edu", "it", "uk", "ru", "de", "nl"] : List String),
        (registryLookup t).isSome) := by
  refine ⟨fun t e h => registryLookup_mem h, ?_, by decide, by decide⟩
  intro t h e he
  have := List.find?_eq_none.mp h e he
  simpa using this

/-- C5 witness: the `com` row. -/
theorem registry_lookup_spec_witness :
    (⟨"com", "whois.verisign-grs.com", "domain "⟩ : ServerEntry) ∈
        create_whois_servers ∧
    (ServerEntry.tld ⟨"com", "whois.verisign-grs.com", "domain "⟩) = "com" :=
  registry_lookup_spec.1 "com"
    ⟨"com", "whois.verisign-grs.com", "domain "⟩ (by decide)

/-- C6: when the network replies, a response that is empty after trimming
is rejected with the empty-response error, and a response that is not empty
after trimming is returned in full, untrimmed. -/
theorem empty_response_check (net : Net) (server pfx target resp : String)
    (hr : net server 43 (pfx ++ target ++ "\r\n") = .reply resp) :
    ((trimChars resp.data).isEmpty = true →
      (query_whois_server net server pfx target).1 = .error .emptyResponse) ∧
    ((trimChars resp.data).isEmpty = false →
      (query_whois_server net server pfx target).1 = .ok resp) := by
  constructor <;> intro h <;> simp [query_whois_server, hr, h]

/-- C6 witness: a whitespace-only reply (`" \r\n "`) is rejected as an
empty response. -/
theorem empty_response_check_witness :
    (query_whois_server (fun _ _ _ => .reply " \r\n ")
        "whois.iana.org" "" "example").1 = .error .emptyResponse :=
  (empty_response_check (fun _ _ _ => .reply " \r\n ")
      "whois.iana.org" "" "example" " \r\n " rfl).1 (by decide)

/-- C7: when the TLD-specific attempt and the fallback attempt both fail,
the resolution's final error wraps the fallback attempt's error, and the
TLD-specific attempt's error appears only in the warning trace. -/
theorem both_fail_final_error (net : Net) (target : String) (e : ServerEntry)
    (specErr fbErr : QueryError)
    (hs : specificEntry target = some e)
    (h1 : (query_whois_server net e.host e.pfx target).1 = .error specErr)
    (h2 : (query_whois_server net "whois.iana.org" "" target).1 = .error fbErr) :
    (perform_whois net target).1 = .error (.lookupFailed fbErr) ∧
    (perform_whois net target).2.warnings = [specErr] := by
  have hres := iana_fallback_result net target
  rw [h2] at hres
  constructor <;> simp [perform_whois, hs, h1, hres]

/-- C7 witness: a network refusing every connection for target
`"example.com"`: the final error wraps the fallback's connect error and the
specific attempt's connect error is the sole warning. -/
theorem both_fail_final_error_witness :
    (perform_whois (fun _ _ _ => .fail .connectError) "example.com").1 =
      .error (.lookupFailed (.net .connectError)) ∧
    (perform_whois (fun _ _ _ => .fail .connectError) "example.com").2.warnings =
      [.net .connectError] :=
  both_fail_final_error (fun _ _ _ => .fail .connectError) "example.com"
    ⟨"com", "whois.verisign-grs.com", "domain "⟩
    (.net .connectError) (.net .connectError) (by decide) rfl rfl

/-- C8: every attempt of a resolution carries a 10-second read timeout and
a 10-second write timeout, at most two attempts occur, and a timeout on the
TLD-specific server is followed by exactly one fallback attempt against
`whois.iana.org` — a different host — never a retry of the same server. -/
theorem timeouts_and_attempt_bound (net : Net) (target : String) :
    (∀ a ∈ (perform_whois net target).2.attempts,
        a.readTimeoutSecs = 10 ∧ a.writeTimeoutSecs = 10) ∧
    (perform_whois net target).2.attempts.length ≤ 2 ∧
    (∀ e, specificEntry target = some e →
      net e.host 43 (e.pfx ++ target ++ "\r\n") = .fail .timeoutError →
      (perform_whois net target).2.attempts =
        [⟨e.host, 43, e.pfx ++ target ++ "\r\n", 10, 10⟩,
         ⟨"whois.iana.org", 43, target ++ "\r\n", 10, 10⟩] ∧
      e.host ≠ "whois.iana.org") := by
  have hsh := perform_whois_attempts net target
  refine ⟨?_, ?_, ?_⟩
  · intro a ha
    rw [hsh] at ha
    rcases hs : specificEntry target with _ | e <;> simp only [hs] at ha
    · simp at ha
      subst ha
      exact ⟨rfl, rfl⟩
    · rcases hq : (query_whois_server net e.host e.pfx target).1 with err | body <;>
        simp only [hq] at ha <;> simp at ha
      · rcases ha with ha | ha <;> subst ha <;> exact ⟨rfl, rfl⟩
      · subst ha
        exact ⟨rfl, rfl⟩
  · rw [hsh]
    rcases hs : specificEntry target with _ | e <;> simp only [hs]
    · simp
    · rcases hq : (query_whois_server net e.host e.pfx target).1 with err | body <;>
        simp only [hq] <;> simp
  · intro e hs hnet
    have hq : (query_whois_server net e.host e.pfx target).1 =
        .error (.net .timeoutError) := by
      simp [query_whois_server, hnet]
    simp only [hs, hq] at hsh
    exact ⟨hsh, registry_host_ne_iana e (specificEntry_mem hs)⟩

/-- C8 witness: a network that always times out, for target
`"example.com"`: the trace is the Verisign attempt followed by the single
IANA fallback attempt. -/
theorem timeouts_and_attempt_bound_witness :
    (perform_whois (fun _ _ _ => .fail .timeoutError) "example.com").2.attempts =
      [⟨"whois.verisign-grs.com", 43, "domain " ++ "example.com" ++ "\r\n", 10, 10⟩,
       ⟨"whois.iana.org", 43, "example.com" ++ "\r\n", 10, 10⟩] ∧
    "whois.verisign-grs.com" ≠ "whois.iana.org" := by
  have h := (timeouts_and_attempt_bound
      (fun _ _ _ => .fail .timeoutError) "example.com").2.2
    ⟨"com", "whois.verisign-grs.com", "domain "⟩ (by decide) rfl
  exact h

/-- C9 counterexample: on the successful resolution of `"example.com"` the
presenter's first line is the header `"WHOIS Information:"`, not
`"Server used: whois.verisign-grs.com"`. -/
theorem presenter_first_line_counterexample :
    (perform_whois (fun _ _ _ => .reply "data") "example.com").1 =
      .ok ⟨"whois.verisign-grs.com", "data"⟩ ∧
    (print_whois_result "whois.verisign-grs.com" "data").head? =
      some "WHOIS Information:" ∧
    "WHOIS Information:" ≠ "Server used: whois.verisign-grs.com" :=
  ⟨rfl, rfl, by decide⟩

/-- C9 amended: on a successful resolution of `"example.com"` via its
TLD-specific server, the presenter's output begins with the header line
`"WHOIS Information:"` and a separator, and its third line is
`"Server used: whois.verisign-grs.com"`. -/
theorem presenter_server_line (net : Net) (body : String)
    (h : (query_whois_server net "whois.verisign-grs.com" "domain "
        "example.com").1 = .ok body) :
    (perform_whois net "example.com").1 =
      .ok ⟨"whois.verisign-grs.com", body⟩ ∧
    (print_whois_result "whois.verisign-grs.com" body).head? =
      some "WHOIS Information:" ∧
    (print_whois_result "whois.verisign-grs.com" body)[1]? = some sep_line ∧
    (print_whois_result "whois.verisign-grs.com" body)[2]? =
      some "Server used: whois.verisign-grs.com" := by
  have hs : specificEntry "example.com" =
      some ⟨"com", "whois.verisign-grs.com", "domain "⟩ := by decide
  exact ⟨by simp [perform_whois, hs, h], rfl, rfl, rfl⟩

/-- C9 amended witness: a network that always replies `"data"`. -/
theorem presenter_server_line_witness :
    (perform_whois (fun _ _ _ => .reply "data") "example.com").1 =
      .ok ⟨"whois.verisign-grs.com", "data"⟩ ∧
    (print_whois_result "whois.verisign-grs.com" "data").head? =
      some "WHOIS Information:" ∧
    (print_whois_result "whois.verisign-grs.com" "data")[1]? = some sep_line ∧
    (print_whois_result "whois.verisign-grs.com" "data")[2]? =
      some "Server used: whois.verisign-grs.com" :=
  presenter_server_line (fun _ _ _ => .reply "data") "data" rfl

/-- C10: `get_tld` returns a value for every input — its `none` branch is
unreachable — returning the entire input when the input has no `'.'`, so a
registry lookup is attempted for every target and the resolver's no-TLD
skip path never executes. -/
theorem tld_skip_path_unreachable :
    (∀ s : String, (get_tld s).isSome) ∧
    (∀ s : String, '.' ∉ s.data → get_tld s = some s) ∧
    (∀ target : String, ∃ tld, get_tld target = some tld ∧
        specificEntry target = registryLookup tld) := by
  refine ⟨get_tld_isSome, fun s h => get_tld_of_no_dot h, ?_⟩
  intro target
  rcases hg : get_tld target with _ | tld
  · have := get_tld_isSome target
    rw [hg] at this
    simp at this
  · exact ⟨tld, rfl, by simp [specificEntry, hg]⟩

/-- C10 witness: the dot-free input `"noDotHere"` yields itself as TLD. -/
theorem tld_skip_path_unreachable_witness :
    get_tld "noDotHere" = some "noDotHere" :=
  tld_skip_path_unreachable.2.1 "noDotHere" (by decide)
